import Mathlib

/-!
# Verification of the multi-tenant clinical-records access-control core

A shallow embedding, in Lean 4, of the access-control and compliance core
of the `ai-ehr` backend: tenant resolution
(`app/api/middleware/tenant.py`), audit logging (`app/core/audit.py`,
`app/api/middleware/audit.py`, `app/api/routes/audit_logs.py`),
field-level encryption (`app/utils/encryption.py`) and break-glass
emergency access (`app/core/break_glass.py`).

Conventions of the embedding:
* Python strings are Lean `String`; helper functions on `String.data`
  mirror the exact Python string operations used by the source.
* Wall-clock instants (`datetime` values, stored by the source as ISO
  strings and parsed back losslessly) are modelled as `Int` minutes;
  only their linear order and addition of minute durations are used.
* Effects are made explicit: fresh UUIDs and `datetime.now()` values are
  explicit arguments, JWT decoding is an explicit
  `String → Option TokenPayload` parameter (`None` models a raised
  decoding exception), the Fernet cipher of the `cryptography` library is
  an explicit pair of functions with its library-documented contract
  stated as hypotheses, module-level mutable state (the audit table, the
  break-glass session dict) is threaded as explicit values.
-/

/-! ## String helpers mirroring the Python string operations -/

/-- Python `s.startswith(p)`. -/
def strStarts (s p : String) : Bool :=
  p.data.isPrefixOf s.data

/-- Python `s[n:]` (used for `removeprefix` after a `startswith` check). -/
def strDrop (s : String) (n : Nat) : String :=
  ⟨s.data.drop n⟩

/-- Python `s.strip()`: remove leading and trailing whitespace. -/
def strTrim (s : String) : String :=
  ⟨((s.data.dropWhile Char.isWhitespace).reverse.dropWhile
      Char.isWhitespace).reverse⟩

/-- Python `s.replace("-", "_")` on single characters. -/
def replaceDashes (s : String) : String :=
  ⟨s.data.map (fun c => if c = '-' then '_' else c)⟩

/-- Python `s.rstrip("/")`. -/
def rstripSlash (s : String) : String :=
  ⟨(s.data.reverse.dropWhile (fun c => c == '/')).reverse⟩

/-- Python `s.rsplit("/", 1)[-1]`: the part after the last `/`
(the whole string when there is no `/`). -/
def lastSegment (s : String) : String :=
  ⟨(s.data.reverse.takeWhile (fun c => c != '/')).reverse⟩

/-- Python `s.lower()`. -/
def lowerStr (s : String) : String :=
  ⟨s.data.map Char.toLower⟩

/-! ## Configuration (`app/core/config.py`) -/

/-- `settings.DEFAULT_TENANT_SCHEMA` (config.py line 65). -/
def DEFAULT_TENANT_SCHEMA : String := "public"

/-! ## Authentication boundary (`app/core/security.py`)

A decoded JWT payload.  The middleware reads `payload.get("sub")` and
`payload.get("tenant_id", "")`; a missing or `None` claim and an empty
claim are both falsy in Python, so both are modelled as `""`. -/

structure TokenPayload where
  sub : String
  tenant_id : String
deriving DecidableEq, Repr

/-! ## Tenant middleware (`app/api/middleware/tenant.py`) -/

/-- `_PUBLIC_PREFIXES` of tenant.py: paths that skip tenant resolution. -/
def publicPaths : List String :=
  ["/health", "/docs", "/redoc", "/openapi.json",
   "/api/v1/auth/login", "/api/v1/auth/register", "/fhir/metadata"]

/-- `TenantMiddleware.dispatch`, restricted to the value it stores into
the `tenant_context` context variable.  `decode` is
`app.core.security.decode_token`; `decode tok = none` models the
`except Exception` branch (a raised decoding error). -/
def tenant_dispatch (decode : String → Option TokenPayload)
    (path authHeader : String) : String :=
  if publicPaths.any (fun p => strStarts path p) then
    DEFAULT_TENANT_SCHEMA
  else if strStarts authHeader "Bearer " then
    match decode (strTrim (strDrop authHeader 7)) with
    | some payload =>
        let tid := payload.tenant_id
        if tid ≠ "" then "tenant_" ++ replaceDashes tid
        else DEFAULT_TENANT_SCHEMA
    | none => DEFAULT_TENANT_SCHEMA
  else DEFAULT_TENANT_SCHEMA

/-- A `decode_token` that always raises (e.g. a malformed or forged
token). -/
def decodeAlwaysFails : String → Option TokenPayload := fun _ => none

/-- A `decode_token` returning a payload whose `tenant_id` claim is
empty/absent. -/
def decodeEmptyTenant : String → Option TokenPayload :=
  fun _ => some { sub := "3f2c8a30-0000-0000-0000-000000000001", tenant_id := "" }

/-- C1: For every request to a non-public route whose tenant claim is
missing, empty, or malformed, tenant resolution ends in an
InvalidNamespace/authorization error and the request's tenant context is
never set to the default namespace.

The code does the opposite.  At the non-public path
`/api/v1/patients/1`: with no `Authorization` header, with a bearer
token whose decoding raises, and with a decoded token carrying an empty
`tenant_id` claim, `TenantMiddleware.dispatch` silently sets the tenant
context to the default schema `"public"` and forwards the request; no
error of any kind is produced.  (§9 of the design notes flags exactly
this silent fallback as a latent authorization bug.) -/
theorem tenant_dispatch_fails_open :
    publicPaths.any (fun p => strStarts "/api/v1/patients/1" p) = false
    ∧ tenant_dispatch decodeAlwaysFails "/api/v1/patients/1" ""
        = DEFAULT_TENANT_SCHEMA
    ∧ tenant_dispatch decodeAlwaysFails "/api/v1/patients/1" "Bearer zzz"
        = DEFAULT_TENANT_SCHEMA
    ∧ tenant_dispatch decodeEmptyTenant "/api/v1/patients/1" "Bearer zzz"
        = DEFAULT_TENANT_SCHEMA := by
  refine ⟨by decide, ?_, ?_, ?_⟩ <;> rfl

/-! ## Audit data model (`app/models/audit_log.py`, `app/core/audit.py`)

`AuditLog` rows.  `uuid.UUID` values appear as their string form; the
`details` JSON payload is modelled as a list of key/value pairs whose
values are strings or integers (the only kinds the core writes). -/

/-- A value inside the `details` JSONB payload. -/
inductive DVal where
  | str (s : String)
  | num (n : Int)
deriving DecidableEq, Repr

/-- One row of the append-only `audit_logs` table. -/
structure AuditEntry where
  id : String
  tenant_id : String
  user_id : String
  action : String
  resource_type : String
  resource_id : Option String
  details : List (String × DVal)
  ip_address : Option String
  user_agent : Option String
  timestamp : Int
deriving DecidableEq, Repr

/-- `app.core.audit.record_audit`: insert an immutable audit log entry,
or do nothing when `settings.AUDIT_LOG_ENABLED` is off.  The fresh
`uuid.uuid4()` and `datetime.now(timezone.utc)` are the explicit
arguments `id` and `ts`; the audit table is the explicit `ledger`. -/
def record_audit (enabled : Bool) (ledger : List AuditEntry)
    (id : String) (ts : Int) (tenant_id user_id action resource_type : String)
    (resource_id : Option String) (details : List (String × DVal))
    (ip_address user_agent : Option String) : List AuditEntry :=
  if enabled then
    ledger ++ [{ id := id, tenant_id := tenant_id, user_id := user_id,
                 action := action, resource_type := resource_type,
                 resource_id := resource_id, details := details,
                 ip_address := ip_address, user_agent := user_agent,
                 timestamp := ts }]
  else ledger

/-! ## Audit middleware (`app/api/middleware/audit.py`) -/

/-- `_PHI_PREFIXES` of audit.py: resource paths that involve PHI and
must be audit-logged. -/
def phiPaths : List String :=
  ["/api/v1/patients", "/api/v1/encounters", "/api/v1/orders",
   "/api/v1/appointments", "/api/v1/allergies", "/api/v1/clinical-notes",
   "/api/v1/observations", "/api/v1/conditions", "/api/v1/immunizations",
   "/api/v1/consents", "/fhir/Patient", "/fhir/Observation",
   "/fhir/Condition", "/fhir/Encounter"]

/-- `_METHOD_TO_ACTION.get(request.method, "other")`. -/
def methodToAction (m : String) : String :=
  if m = "GET" then "read"
  else if m = "POST" then "create"
  else if m = "PUT" then "update"
  else if m = "PATCH" then "update"
  else if m = "DELETE" then "delete"
  else "other"

/-- The `resource_type` loop of `AuditMiddleware._write_audit`: the
first PHI prefix the path starts with, as
`prefix.rstrip("/").rsplit("/", 1)[-1].lower()`, or `"unknown"`. -/
def resourceTypeOf (path : String) : String :=
  match phiPaths.find? (fun p => strStarts path p) with
  | some p => lowerStr (lastSegment (rstripSlash p))
  | none => "unknown"

/-- `app.core.database._validate_schema_name`: the regex
`^[a-zA-Z_][a-zA-Z0-9_]{0,62}$` (total length 1–63). -/
def valid_schema_name (s : String) : Bool :=
  match s.data with
  | [] => false
  | c :: rest =>
      (c.isAlpha || c == '_') && rest.length ≤ 62
        && rest.all (fun ch => ch.isAlphanum || ch == '_')

/-- The request-level data `AuditMiddleware` reads. -/
structure ReqModel where
  path : String
  method : String
  authHeader : String
deriving DecidableEq, Repr

/-- `AuditMiddleware.dispatch` composed with `_write_audit`, restricted
to the audit entry it inserts: `some e` when the best-effort write
commits row `e`, `none` when nothing is written (audit disabled,
non-PHI path, missing bearer token, token decoding raises, missing
`sub`/`tenant_id` claim, invalid tenant schema, or a UUID parse error —
every raised exception is swallowed by the `except` in `dispatch`).
`parseUUID` is `uuid.UUID(_)` (`none` = raises); `schemaCtx` is the
`tenant_context` value; `statusCode`, `elapsed_ms`, `ip`, `userAgent`,
the fresh `id` and `ts` are the remaining request-scoped inputs. -/
def audit_dispatch (decode : String → Option TokenPayload)
    (parseUUID : String → Option String) (enabled : Bool) (req : ReqModel)
    (schemaCtx : String) (statusCode elapsed_ms : Int)
    (ip userAgent : Option String) (id : String) (ts : Int) :
    Option AuditEntry :=
  if !enabled then none
  else if !(phiPaths.any (fun p => strStarts req.path p)) then none
  else if !(strStarts req.authHeader "Bearer ") then none
  else
    match decode (strTrim (strDrop req.authHeader 7)) with
    | none => none
    | some payload =>
        if payload.sub = "" || payload.tenant_id = "" then none
        else if !(valid_schema_name schemaCtx) then none
        else
          match parseUUID payload.tenant_id, parseUUID payload.sub with
          | some tu, some uu =>
              some { id := id, tenant_id := tu, user_id := uu,
                     action := methodToAction req.method,
                     resource_type := resourceTypeOf req.path,
                     resource_id := none,
                     details := [("path", DVal.str req.path),
                                 ("method", DVal.str req.method),
                                 ("status_code", DVal.num statusCode),
                                 ("elapsed_ms", DVal.num elapsed_ms)],
                     ip_address := ip, user_agent := userAgent,
                     timestamp := ts }
          | _, _ => none

/-! ## Audit query surface (`app/api/routes/audit_logs.py`)

`GET /audit-logs` — the only read endpoint of the ledger.  It is a pure
function of the table: it filters by the caller's tenant and the
optional query parameters, orders by timestamp descending, and
paginates. -/

/-- The query parameters of `list_audit_logs` (with
`tenant_id = uuid.UUID(current_user.tenant_id)` already resolved).
`page ≥ 1` and `1 ≤ page_size ≤ 200` are enforced by FastAPI `Query`
validators before the handler runs. -/
structure AuditQuery where
  tenant_id : String
  user_id : Option String
  action : Option String
  resource_type : Option String
  resource_id : Option String
  from_date : Option Int
  to_date : Option Int
  page : Nat
  page_size : Nat
deriving Repr

/-- The `AuditLogList` response schema. -/
structure AuditLogList where
  items : List AuditEntry
  total : Nat
  page : Nat
  page_size : Nat
  pages : Nat
deriving Repr

/-- One conjunct per optional `.where` clause of `list_audit_logs`. -/
def auditRowMatches (q : AuditQuery) (e : AuditEntry) : Bool :=
  e.tenant_id == q.tenant_id
  && (match q.user_id with | none => true | some u => e.user_id == u)
  && (match q.action with | none => true | some a => e.action == a)
  && (match q.resource_type with
      | none => true | some r => e.resource_type == r)
  && (match q.resource_id with
      | none => true | some r => e.resource_id == some r)
  && (match q.from_date with | none => true | some d => d ≤ e.timestamp)
  && (match q.to_date with | none => true | some d => e.timestamp ≤ d)

/-- `order_by(AuditLog.timestamp.desc())`: insertion sort by descending
timestamp. -/
def insertByTsDesc (e : AuditEntry) : List AuditEntry → List AuditEntry
  | [] => [e]
  | x :: xs =>
      if x.timestamp ≤ e.timestamp then e :: x :: xs
      else x :: insertByTsDesc e xs

/-- Sort a list of entries by descending timestamp. -/
def sortByTsDesc : List AuditEntry → List AuditEntry
  | [] => []
  | x :: xs => insertByTsDesc x (sortByTsDesc xs)

/-- `list_audit_logs`: filter, count, sort, paginate.  Pure in the
table: it returns a page and leaves the ledger untouched. -/
def list_audit_logs (ledger : List AuditEntry) (q : AuditQuery) :
    AuditLogList :=
  let filtered := ledger.filter (auditRowMatches q)
  let total := filtered.length
  let pageItems :=
    ((sortByTsDesc filtered).drop ((q.page - 1) * q.page_size)).take
      q.page_size
  { items := pageItems, total := total, page := q.page,
    page_size := q.page_size,
    pages := max 1 ((total + q.page_size - 1) / q.page_size) }

/-! ## The ledger component's full operation surface (claim C4)

The audit ledger component consists of exactly three entry points:
the transactional write `record_audit`, the best-effort middleware
write (`AuditMiddleware.dispatch`, which inserts the entry
`audit_dispatch` computes, when any), and the read-only query
`list_audit_logs`.  No update or delete operation exists. -/

/-- One invocation of the ledger surface. -/
inductive LedgerOp where
  | record (enabled : Bool) (id : String) (ts : Int)
      (tenant_id user_id action resource_type : String)
      (resource_id : Option String) (details : List (String × DVal))
      (ip_address user_agent : Option String)
  | mwWrite (decode : String → Option TokenPayload)
      (parseUUID : String → Option String) (enabled : Bool) (req : ReqModel)
      (schemaCtx : String) (statusCode elapsed_ms : Int)
      (ip userAgent : Option String) (id : String) (ts : Int)
  | query (q : AuditQuery)

/-- The effect of one ledger operation on the stored table. -/
def ledger_step (st : List AuditEntry) : LedgerOp → List AuditEntry
  | .record en id ts t u a rt rid d ip ua =>
      record_audit en st id ts t u a rt rid d ip ua
  | .mwWrite dec pu en req sc stc el ip ua id ts =>
      match audit_dispatch dec pu en req sc stc el ip ua id ts with
      | some e => st ++ [e]
      | none => st
  | .query _ => st

/-- A whole sequence of ledger operations. -/
def ledger_run (st : List AuditEntry) : List LedgerOp → List AuditEntry
  | [] => st
  | op :: ops => ledger_run (ledger_step st op) ops

/-- Each single ledger operation only ever appends. -/
theorem ledger_step_extends (st : List AuditEntry) (op : LedgerOp) :
    ∃ tail, ledger_step st op = st ++ tail := by
  cases op with
  | record en id ts t u a rt rid d ip ua =>
      unfold ledger_step record_audit
      cases en with
      | true => exact ⟨_, rfl⟩
      | false => exact ⟨[], (List.append_nil st).symm⟩
  | mwWrite dec pu en req sc stc el ip ua id ts =>
      simp only [ledger_step]
      cases h : audit_dispatch dec pu en req sc stc el ip ua id ts with
      | some e => exact ⟨[e], rfl⟩
      | none => exact ⟨[], (List.append_nil st).symm⟩
  | query q => exact ⟨[], (List.append_nil st).symm⟩

/-- Running any sequence of ledger operations only ever appends. -/
theorem ledger_run_extends (ops : List LedgerOp) :
    ∀ st : List AuditEntry, ∃ tail, ledger_run st ops = st ++ tail := by
  induction ops with
  | nil => exact fun st => ⟨[], (List.append_nil st).symm⟩
  | cons op ops ih =>
      intro st
      obtain ⟨t₁, h₁⟩ := ledger_step_extends st op
      obtain ⟨t₂, h₂⟩ := ih (ledger_step st op)
      exact ⟨t₁ ++ t₂, by rw [ledger_run, h₂, h₁, List.append_assoc]⟩

/-- C4: The audit ledger component exposes no operation that updates or
deletes a written AuditEntry.  Its operation surface is exactly
`LedgerOp` (the transactional write `record_audit`, the best-effort
middleware write, and the read-only query `list_audit_logs`); running
any sequence of these operations only appends to the table, so every
entry once written remains present and unchanged, and the query is a
pure function that never modifies the table. -/
theorem audit_ledger_append_only :
    (∀ (st : List AuditEntry) (ops : List LedgerOp),
        ∃ tail, ledger_run st ops = st ++ tail)
    ∧ (∀ (st : List AuditEntry) (ops : List LedgerOp) (e : AuditEntry),
        e ∈ st → e ∈ ledger_run st ops)
    ∧ (∀ (st : List AuditEntry) (q : AuditQuery),
        ledger_step st (.query q) = st) := by
  refine ⟨fun st ops => ledger_run_extends ops st, ?_, fun st q => rfl⟩
  intro st ops e he
  obtain ⟨tail, h⟩ := ledger_run_extends ops st
  rw [h]
  exact List.mem_append_left _ he

/-! ## Claims C2 and C10 about the audit middleware -/

/-- A `decode_token` for concrete instances: one known token. -/
def decodeDemo : String → Option TokenPayload :=
  fun t =>
    if t = "goodtoken" then
      some { sub := "11111111-1111-1111-1111-111111111111",
             tenant_id := "22222222-2222-2222-2222-222222222222" }
    else none

/-- A `uuid.UUID` model for concrete instances: every canonical UUID
string parses to itself. -/
def parseUUIDDemo : String → Option String := fun s => some s

/-- C2 counterexample: a request to the PHI-classified path
`/api/v1/patients/42` that carries no `Authorization` header is
processed with no audit entry written at all (with audit logging
enabled): `_write_audit` returns before building the entry, so the
claim "every request whose path starts with a PHI-classified prefix
produces at least one AuditEntry" is false. -/
theorem audit_mw_unauthenticated_phi_no_entry :
    phiPaths.any (fun p => strStarts "/api/v1/patients/42" p) = true
    ∧ audit_dispatch decodeDemo parseUUIDDemo true
        { path := "/api/v1/patients/42", method := "GET", authHeader := "" }
        "public" 200 5 none none "e1" 0 = none :=
  ⟨by decide, rfl⟩

/-- C2 (amended): for every PHI-classified request that carries a
bearer token which decodes to a payload with non-empty `sub` and
`tenant_id` claims that parse as UUIDs, with audit logging enabled and
a valid tenant schema in context, the middleware produces exactly one
AuditEntry whose tenant and actor come from the token's claims, whose
action is derived from the HTTP verb by `_METHOD_TO_ACTION`, and whose
resource_type is derived from the matched PHI prefix. -/
theorem audit_mw_phi_write (decode : String → Option TokenPayload)
    (parseUUID : String → Option String) (req : ReqModel)
    (schemaCtx : String) (statusCode elapsed_ms : Int)
    (ip userAgent : Option String) (id : String) (ts : Int)
    (payload : TokenPayload) (tu uu : String)
    (hphi : phiPaths.any (fun p => strStarts req.path p) = true)
    (hauth : strStarts req.authHeader "Bearer " = true)
    (hdec : decode (strTrim (strDrop req.authHeader 7)) = some payload)
    (hsub : payload.sub ≠ "")
    (hten : payload.tenant_id ≠ "")
    (hschema : valid_schema_name schemaCtx = true)
    (hpt : parseUUID payload.tenant_id = some tu)
    (hpu : parseUUID payload.sub = some uu) :
    ∃ e, audit_dispatch decode parseUUID true req schemaCtx statusCode
          elapsed_ms ip userAgent id ts = some e
      ∧ e.tenant_id = tu ∧ e.user_id = uu
      ∧ e.action = methodToAction req.method
      ∧ e.resource_type = resourceTypeOf req.path := by
  have key : audit_dispatch decode parseUUID true req schemaCtx statusCode
      elapsed_ms ip userAgent id ts =
      some { id := id, tenant_id := tu, user_id := uu,
             action := methodToAction req.method,
             resource_type := resourceTypeOf req.path,
             resource_id := none,
             details := [("path", DVal.str req.path),
                         ("method", DVal.str req.method),
                         ("status_code", DVal.num statusCode),
                         ("elapsed_ms", DVal.num elapsed_ms)],
             ip_address := ip, user_agent := userAgent,
             timestamp := ts } := by
    simp [audit_dispatch, hphi, hauth, hdec, hschema, hpt, hpu, hsub, hten]
  exact ⟨_, key, rfl, rfl, rfl, rfl⟩

/-- Witness for C2 (amended): a `POST /api/v1/patients/42` request with
a valid bearer token yields an entry for tenant
`2222…`, actor `1111…`, action `create`, resource type `patients`. -/
theorem audit_mw_phi_write_witness :
    ∃ e, audit_dispatch decodeDemo parseUUIDDemo true
          { path := "/api/v1/patients/42", method := "POST",
            authHeader := "Bearer goodtoken" }
          "tenant_2222" 201 12 none none "e1" 0 = some e
      ∧ e.tenant_id = "22222222-2222-2222-2222-222222222222"
      ∧ e.user_id = "11111111-1111-1111-1111-111111111111"
      ∧ e.action = methodToAction "POST"
      ∧ e.resource_type = resourceTypeOf "/api/v1/patients/42" :=
  audit_mw_phi_write decodeDemo parseUUIDDemo
    { path := "/api/v1/patients/42", method := "POST",
      authHeader := "Bearer goodtoken" }
    "tenant_2222" 201 12 none none "e1" 0
    { sub := "11111111-1111-1111-1111-111111111111",
      tenant_id := "22222222-2222-2222-2222-222222222222" }
    "22222222-2222-2222-2222-222222222222"
    "11111111-1111-1111-1111-111111111111"
    (by decide) (by decide) rfl (by decide) (by decide) rfl rfl rfl

/-- C10: when `settings.AUDIT_LOG_ENABLED` is false, `record_audit`
returns with the ledger completely unchanged and the audit middleware
writes nothing — for every request, including PHI-classified ones — so
no audit trail exists while the flag is off. -/
theorem audit_disabled_no_writes :
    (∀ (ledger : List AuditEntry) (id : String) (ts : Int)
        (t u a rt : String) (rid : Option String)
        (d : List (String × DVal)) (ip ua : Option String),
        record_audit false ledger id ts t u a rt rid d ip ua = ledger)
    ∧ (∀ (dec : String → Option TokenPayload)
        (pu : String → Option String) (req : ReqModel) (sc : String)
        (stc el : Int) (ip ua : Option String) (id : String) (ts : Int),
        audit_dispatch dec pu false req sc stc el ip ua id ts = none) :=
  ⟨fun _ _ _ _ _ _ _ _ _ _ _ => rfl,
   fun _ _ _ _ _ _ _ _ _ _ => rfl⟩

/-! ## Field-level encryption (`app/utils/encryption.py`)

`encrypt_value` / `decrypt_value` wrap the Fernet cipher of the
`cryptography` library.  Fernet is external code: it is modelled as an
explicit pair of functions, with the library-documented contract (a
fresh random IV per call, authenticated decryption that raises
`InvalidToken` on corruption or a wrong key — here `Option.none`)
supplied as hypotheses where a theorem needs it.  The per-call fresh
randomness is the explicit `nonce` argument. -/

/-- `encrypt_value`: `""` for falsy input, otherwise `f.encrypt`. -/
def encrypt_value (enc : Nat → String → String) (nonce : Nat)
    (plaintext : String) : String :=
  if plaintext = "" then "" else enc nonce plaintext

/-- `decrypt_value`: `""` for falsy input; `f.decrypt`, with every
raised exception (`InvalidToken` included) caught and turned into the
return value `""`. -/
def decrypt_value (dec : String → Option String) (ciphertext : String) :
    String :=
  if ciphertext = "" then ""
  else
    match dec ciphertext with
    | some p => p
    | none => ""

/-! A concrete keyed cipher satisfying the Fernet contract, used to
instantiate the hypotheses of the general theorems on closed inputs.
A ciphertext is `'c'`, the key in unary (`'k'` repeated), `';'`, the
IV in unary (`'x'` repeated), `';'`, then the plaintext; decryption
authenticates the key and rejects every other shape. -/

/-- Reference cipher: encryption under key `key` with fresh IV `nonce`. -/
def toyEncrypt (key nonce : Nat) (p : String) : String :=
  ⟨'c' :: (List.replicate key 'k'
      ++ ';' :: (List.replicate nonce 'x' ++ ';' :: p.data))⟩

/-- Reference cipher: authenticated decryption under key `key`
(`none` = `InvalidToken`). -/
def toyDecrypt (key : Nat) (c : String) : Option String :=
  match c.data with
  | 'c' :: rest =>
      if (rest.takeWhile (fun ch => ch == 'k')).length = key then
        match rest.dropWhile (fun ch => ch == 'k') with
        | ';' :: rest2 =>
            match rest2.dropWhile (fun ch => ch == 'x') with
            | ';' :: pdata => some ⟨pdata⟩
            | _ => none
        | _ => none
      else none
  | _ => none

theorem takeWhile_unary_marker (m s : Char) (hms : (s == m) = false)
    (k : Nat) (L : List Char) :
    (List.replicate k m ++ s :: L).takeWhile (fun ch => ch == m)
      = List.replicate k m := by
  induction k with
  | zero => simp [List.takeWhile_cons, hms]
  | succ k ih => simp [List.replicate_succ, List.takeWhile_cons, ih]

theorem dropWhile_unary_marker (m s : Char) (hms : (s == m) = false)
    (k : Nat) (L : List Char) :
    (List.replicate k m ++ s :: L).dropWhile (fun ch => ch == m)
      = s :: L := by
  induction k with
  | zero => simp [List.dropWhile_cons, hms]
  | succ k ih => simp [List.replicate_succ, List.dropWhile_cons, ih]

/-- The reference cipher satisfies Fernet's round-trip contract. -/
theorem toy_roundtrip (key nonce : Nat) (p : String) :
    toyDecrypt key (toyEncrypt key nonce p) = some p := by
  unfold toyDecrypt toyEncrypt
  simp only [takeWhile_unary_marker 'k' ';' (by decide),
    dropWhile_unary_marker 'k' ';' (by decide),
    dropWhile_unary_marker 'x' ';' (by decide),
    List.length_replicate, if_true]

/-- The reference cipher satisfies Fernet's wrong-key contract:
decryption under any other key raises `InvalidToken`. -/
theorem toy_wrong_key (k₁ k₂ nonce : Nat) (p : String) (hk : k₂ ≠ k₁) :
    toyDecrypt k₂ (toyEncrypt k₁ nonce p) = none := by
  unfold toyDecrypt toyEncrypt
  simp only [takeWhile_unary_marker 'k' ';' (by decide),
    List.length_replicate]
  rw [if_neg (Ne.symm hk)]

/-- Reference-cipher ciphertexts are never the empty string. -/
theorem toy_ciphertext_ne_empty (key nonce : Nat) (p : String) :
    toyEncrypt key nonce p ≠ "" := by
  intro h
  have := congrArg String.data h
  simp [toyEncrypt] at this

/-- Distinct fresh IVs give distinct reference-cipher ciphertexts
(their lengths already differ). -/
theorem toy_nonce_distinct (key n₁ n₂ : Nat) (p : String) (hn : n₁ ≠ n₂) :
    toyEncrypt key n₁ p ≠ toyEncrypt key n₂ p := by
  intro h
  have hd := congrArg (fun s : String => s.data.length) h
  simp [toyEncrypt] at hd
  omega

/-! ## Claims C3, C5, C6 about the field cipher -/

/-- C5: For every plaintext `p` (the empty string and arbitrarily long
strings included), decrypting the result of encrypting `p` under the
active key returns exactly `p`, for any cipher satisfying Fernet's
round-trip contract (authenticated decryption inverts encryption and
ciphertexts are non-empty). -/
theorem encrypt_decrypt_roundtrip (enc : Nat → String → String)
    (dec : String → Option String)
    (hrt : ∀ n q, dec (enc n q) = some q)
    (hne : ∀ n q, enc n q ≠ "")
    (nonce : Nat) (p : String) :
    decrypt_value dec (encrypt_value enc nonce p) = p := by
  unfold encrypt_value decrypt_value
  by_cases hp : p = ""
  · simp [hp]
  · rw [if_neg hp, if_neg (hne nonce p), hrt]

/-- Witness for C5 at the reference cipher and the spec's SSN-shaped
scenario string. -/
theorem encrypt_decrypt_roundtrip_witness :
    decrypt_value (toyDecrypt 3)
      (encrypt_value (toyEncrypt 3) 7 "123-45-6789") = "123-45-6789" :=
  encrypt_decrypt_roundtrip (toyEncrypt 3) (toyDecrypt 3)
    (toy_roundtrip 3) (toy_ciphertext_ne_empty 3) 7 "123-45-6789"

/-- C6 counterexample: for the empty plaintext, two independent calls to
`encrypt_value` — drawing the distinct fresh IVs 0 and 1 — return the
same ciphertext `""`, because `encrypt_value` short-circuits falsy
input before the cipher (and its randomness) is ever consulted.  The
claim "for every plaintext p, two independent calls to encrypt(p) yield
different ciphertexts" is therefore false at `p = ""`. -/
theorem encrypt_empty_equal_ciphertexts :
    (0 : Nat) ≠ 1
    ∧ encrypt_value (toyEncrypt 1) 0 "" = encrypt_value (toyEncrypt 1) 1 "" :=
  ⟨by decide, rfl⟩

/-- C6 (amended): for every non-empty plaintext `p`, two independent
calls to `encrypt_value` (distinct fresh IVs) yield different
ciphertexts, for any cipher whose output separates IVs; the empty
plaintext is the single exception, deterministically encrypted to `""`. -/
theorem encrypt_nondeterministic (enc : Nat → String → String)
    (hinj : ∀ n₁ n₂ q, n₁ ≠ n₂ → enc n₁ q ≠ enc n₂ q)
    (n₁ n₂ : Nat) (p : String) (hp : p ≠ "") (hn : n₁ ≠ n₂) :
    encrypt_value enc n₁ p ≠ encrypt_value enc n₂ p := by
  unfold encrypt_value
  rw [if_neg hp, if_neg hp]
  exact hinj n₁ n₂ p hn

/-- Witness for C6 (amended) at the reference cipher: encrypting the
spec's scenario string twice gives two unequal ciphertexts. -/
theorem encrypt_nondeterministic_witness :
    encrypt_value (toyEncrypt 1) 0 "123-45-6789"
      ≠ encrypt_value (toyEncrypt 1) 1 "123-45-6789" :=
  encrypt_nondeterministic (toyEncrypt 1) (toy_nonce_distinct 1) 0 1
    "123-45-6789" (by decide) (by decide)

/-- C3 counterexample: decrypting the corrupted ciphertext `"garbage"`
(rejected by authenticated decryption) yields exactly the same result
as decrypting the legitimate empty/absent value: the empty string.  The
failure result is therefore NOT distinguishable from the legitimate
result for an absent value, contrary to the claim. -/
theorem decrypt_failure_indistinguishable :
    toyDecrypt 1 "garbage" = none
    ∧ "garbage" ≠ ""
    ∧ decrypt_value (toyDecrypt 1) "garbage"
        = decrypt_value (toyDecrypt 1) "" :=
  ⟨by decide, by decide, rfl⟩

/-- C3 (amended): decryption of corrupted or foreign-key ciphertext
fails without raising into the caller — `decrypt_value` catches the
`InvalidToken` and returns — but the failure result is the empty string
itself, i.e. exactly the legitimate result for an empty/absent value,
not a distinguishable signal.  In particular ciphertext produced under
one key and decrypted under another never yields wrong data: it yields
this silent empty-string failure. -/
theorem decrypt_failure_silenced :
    (∀ (dec : String → Option String) (c : String), dec c = none →
        decrypt_value dec c = ""
        ∧ decrypt_value dec c = decrypt_value dec "")
    ∧ (∀ (k₁ k₂ n : Nat) (p : String), k₂ ≠ k₁ →
        decrypt_value (toyDecrypt k₂)
          (encrypt_value (toyEncrypt k₁) n p) = "") := by
  constructor
  · intro dec c h
    have h1 : decrypt_value dec c = "" := by
      unfold decrypt_value
      by_cases hc : c = ""
      · simp [hc]
      · rw [if_neg hc, h]
    exact ⟨h1, by rw [h1]; rfl⟩
  · intro k₁ k₂ n p hk
    by_cases hp : p = ""
    · simp [hp, encrypt_value, decrypt_value]
    · unfold encrypt_value decrypt_value
      rw [if_neg hp, if_neg (toy_ciphertext_ne_empty k₁ n p),
        toy_wrong_key k₁ k₂ n p hk]

/-- Witness for C3 (amended): the corrupted ciphertext `"garbage"` and
a wrong-key decryption of an SSN both come back as the silent `""`. -/
theorem decrypt_failure_silenced_witness :
    decrypt_value (toyDecrypt 1) "garbage" = ""
    ∧ decrypt_value (toyDecrypt 1) "garbage" = decrypt_value (toyDecrypt 1) ""
    ∧ decrypt_value (toyDecrypt 2)
        (encrypt_value (toyEncrypt 1) 5 "123-45-6789") = "" :=
  ⟨(decrypt_failure_silenced.1 (toyDecrypt 1) "garbage" (by decide)).1,
   (decrypt_failure_silenced.1 (toyDecrypt 1) "garbage" (by decide)).2,
   decrypt_failure_silenced.2 1 2 5 "123-45-6789" (by decide)⟩

/-! ## Break-glass emergency access (`app/core/break_glass.py`)

The module-level `_active_sessions: dict[str, dict]` is modelled as an
association list in insertion order (Python dicts preserve it, and
`is_break_glass_active` iterates in it).  The ISO timestamp strings
stored in each session dict round-trip losslessly through
`datetime.fromisoformat`, so they appear as their `Int` instants. -/

/-- One `_active_sessions` value. -/
structure BGSession where
  user_id : String
  tenant_id : String
  patient_id : String
  reason : String
  activated_at : Int
  expires_at : Int
  last_reauth : Int
deriving DecidableEq, Repr

def BREAK_GLASS_DEFAULT_MINUTES : Int := 60
def BREAK_GLASS_MAX_MINUTES : Int := 240
def REAUTH_INTERVAL_MINUTES : Int := 30

/-- The dict returned by `activate_break_glass`. -/
structure ActivateResponse where
  session_id : String
  expires_at : Int
  reauth_required_at : Int
deriving DecidableEq, Repr

/-- The detail message of the `HTTPException` raised for an
over-maximum duration. -/
def BREAK_GLASS_MAX_DETAIL : String :=
  "Maximum break-glass duration is 240 minutes"

/-- `activate_break_glass`.  `user_id`/`tenant_id` are the
authenticated caller's claims (already UUID-parsed by
`get_current_user`), `now` is `datetime.now(timezone.utc)`,
`session_id` the fresh `uuid.uuid4()`, `audit_id` the fresh id drawn
inside `record_audit`, and `enabled` is `settings.AUDIT_LOG_ENABLED`.
`.error` models the raised `HTTPException` (status 400), which happens
before any state is touched. -/
def activate_break_glass (reason patient_id : String)
    (duration_minutes : Int) (user_id tenant_id : String) (now : Int)
    (session_id : String) (enabled : Bool) (audit_id : String)
    (store : List (String × BGSession)) (ledger : List AuditEntry) :
    Except String ActivateResponse
      × List (String × BGSession) × List AuditEntry :=
  if duration_minutes > BREAK_GLASS_MAX_MINUTES then
    (.error BREAK_GLASS_MAX_DETAIL, store, ledger)
  else
    let sess : BGSession :=
      { user_id := user_id, tenant_id := tenant_id,
        patient_id := patient_id, reason := reason,
        activated_at := now, expires_at := now + duration_minutes,
        last_reauth := now }
    (.ok { session_id := session_id,
           expires_at := now + duration_minutes,
           reauth_required_at := now + REAUTH_INTERVAL_MINUTES },
     store ++ [(session_id, sess)],
     record_audit enabled ledger audit_id now tenant_id user_id
       "break_glass_activate" "patient" (some patient_id)
       [("session_id", DVal.str session_id),
        ("reason", DVal.str reason),
        ("duration_minutes", DVal.num duration_minutes)]
       none none)

/-- `is_break_glass_active`: scan the store in insertion order; purge
every expired session encountered, return the first non-expired match
(leaving the rest of the store unscanned).  Returns the result together
with the store the scan leaves behind. -/
def is_break_glass_active (now : Int) (user_id patient_id : String) :
    List (String × BGSession) → Option String × List (String × BGSession)
  | [] => (none, [])
  | (sid, s) :: rest =>
      if s.expires_at < now then
        is_break_glass_active now user_id patient_id rest
      else if s.user_id == user_id && s.patient_id == patient_id then
        (some sid, (sid, s) :: rest)
      else
        let r := is_break_glass_active now user_id patient_id rest
        (r.1, (sid, s) :: r.2)

/-- `dict.pop(session_id, None)`'s removal: drop the (unique) binding
of the key, if any. -/
def eraseKey (session_id : String) :
    List (String × BGSession) → List (String × BGSession)
  | [] => []
  | (k, v) :: rest =>
      if k = session_id then rest else (k, v) :: eraseKey session_id rest

/-- `deactivate_break_glass`: pop the session; when one was present
(expired or not), write a `break_glass_deactivate` audit entry; when
none was, do nothing. -/
def deactivate_break_glass (session_id : String)
    (user_id tenant_id : String) (enabled : Bool) (audit_id : String)
    (ts : Int) (store : List (String × BGSession))
    (ledger : List AuditEntry) :
    List (String × BGSession) × List AuditEntry :=
  match store.find? (fun e => e.1 == session_id) with
  | none => (store, ledger)
  | some e =>
      (eraseKey session_id store,
       record_audit enabled ledger audit_id ts tenant_id user_id
         "break_glass_deactivate" "patient" (some e.2.patient_id)
         [("session_id", DVal.str session_id)] none none)

/-! Helper lemmas about the `is_break_glass_active` scan. -/

theorem bg_isActive_some_iff (now : Int) (uid pid : String)
    (store : List (String × BGSession)) :
    (is_break_glass_active now uid pid store).1.isSome = true
      ↔ ∃ e ∈ store, ¬(e.2.expires_at < now)
          ∧ e.2.user_id = uid ∧ e.2.patient_id = pid := by
  induction store with
  | nil => simp [is_break_glass_active]
  | cons hd tl ih =>
      obtain ⟨sid, s⟩ := hd
      by_cases hexp : s.expires_at < now
      · rw [show is_break_glass_active now uid pid ((sid, s) :: tl)
              = is_break_glass_active now uid pid tl by
            simp [is_break_glass_active, hexp]]
        rw [ih]
        constructor
        · rintro ⟨e, he, h⟩; exact ⟨e, List.mem_cons_of_mem _ he, h⟩
        · rintro ⟨e, he, h⟩
          rcases List.mem_cons.mp he with rfl | he'
          · exact absurd hexp h.1
          · exact ⟨e, he', h⟩
      · by_cases hm : s.user_id = uid ∧ s.patient_id = pid
        · have : is_break_glass_active now uid pid ((sid, s) :: tl)
              = (some sid, (sid, s) :: tl) := by
            simp [is_break_glass_active, hexp, hm.1, hm.2]
          rw [this]
          simp only [Option.isSome_some, true_iff]
          exact ⟨(sid, s), List.mem_cons_self _ _, hexp, hm.1, hm.2⟩
        · have hmb : (s.user_id == uid && s.patient_id == pid) = false := by
            rcases Decidable.not_and_iff_or_not.mp hm with h | h <;>
              simp [h]
          have : is_break_glass_active now uid pid ((sid, s) :: tl)
              = ((is_break_glass_active now uid pid tl).1,
                 (sid, s) :: (is_break_glass_active now uid pid tl).2) := by
            simp [is_break_glass_active, hexp, hmb]
          rw [this]
          simp only []
          rw [ih]
          constructor
          · rintro ⟨e, he, h⟩; exact ⟨e, List.mem_cons_of_mem _ he, h⟩
          · rintro ⟨e, he, h⟩
            rcases List.mem_cons.mp he with rfl | he'
            · exact absurd ⟨h.2.1, h.2.2⟩ hm
            · exact ⟨e, he', h⟩

theorem bg_isActive_sublist (now : Int) (uid pid : String)
    (store : List (String × BGSession)) :
    (is_break_glass_active now uid pid store).2.Sublist store := by
  induction store with
  | nil => simp [is_break_glass_active]
  | cons hd tl ih =>
      obtain ⟨sid, s⟩ := hd
      by_cases hexp : s.expires_at < now
      · rw [show is_break_glass_active now uid pid ((sid, s) :: tl)
              = is_break_glass_active now uid pid tl by
            simp [is_break_glass_active, hexp]]
        exact ih.cons _
      · by_cases hmb : (s.user_id == uid && s.patient_id == pid) = true
        · rw [show is_break_glass_active now uid pid ((sid, s) :: tl)
                = (some sid, (sid, s) :: tl) by
              simp [is_break_glass_active, hexp, hmb]]
        · rw [show is_break_glass_active now uid pid ((sid, s) :: tl)
                = ((is_break_glass_active now uid pid tl).1,
                   (sid, s) :: (is_break_glass_active now uid pid tl).2) by
              simp [is_break_glass_active, hexp,
                    Bool.eq_false_iff.mpr hmb]]
          exact ih.cons₂ _

theorem bg_isActive_removed_expired (now : Int) (uid pid : String)
    (store : List (String × BGSession)) :
    ∀ e ∈ store, e ∉ (is_break_glass_active now uid pid store).2 →
      e.2.expires_at < now := by
  induction store with
  | nil => intro e he; exact absurd he (List.not_mem_nil e)
  | cons hd tl ih =>
      obtain ⟨sid, s⟩ := hd
      intro e he hout
      by_cases hexp : s.expires_at < now
      · rw [show is_break_glass_active now uid pid ((sid, s) :: tl)
              = is_break_glass_active now uid pid tl by
            simp [is_break_glass_active, hexp]] at hout
        rcases List.mem_cons.mp he with rfl | he'
        · exact hexp
        · exact ih e he' hout
      · by_cases hmb : (s.user_id == uid && s.patient_id == pid) = true
        · rw [show is_break_glass_active now uid pid ((sid, s) :: tl)
                = (some sid, (sid, s) :: tl) by
              simp [is_break_glass_active, hexp, hmb]] at hout
          exact absurd he hout
        · rw [show is_break_glass_active now uid pid ((sid, s) :: tl)
                = ((is_break_glass_active now uid pid tl).1,
                   (sid, s) :: (is_break_glass_active now uid pid tl).2) by
              simp [is_break_glass_active, hexp,
                    Bool.eq_false_iff.mpr hmb]] at hout
          rcases List.mem_cons.mp he with rfl | he'
          · exact absurd (List.mem_cons_self _ _) hout
          · exact ih e he' (fun hmem => hout (List.mem_cons_of_mem _ hmem))

theorem bg_isActive_none_filter (now : Int) (uid pid : String)
    (store : List (String × BGSession)) :
    (is_break_glass_active now uid pid store).1 = none →
      (is_break_glass_active now uid pid store).2
        = store.filter (fun e => !(decide (e.2.expires_at < now))) := by
  induction store with
  | nil => intro; simp [is_break_glass_active]
  | cons hd tl ih =>
      obtain ⟨sid, s⟩ := hd
      intro hnone
      by_cases hexp : s.expires_at < now
      · rw [show is_break_glass_active now uid pid ((sid, s) :: tl)
              = is_break_glass_active now uid pid tl by
            simp [is_break_glass_active, hexp]] at hnone ⊢
        rw [ih hnone, List.filter_cons]
        simp [hexp]
      · by_cases hmb : (s.user_id == uid && s.patient_id == pid) = true
        · rw [show is_break_glass_active now uid pid ((sid, s) :: tl)
                = (some sid, (sid, s) :: tl) by
              simp [is_break_glass_active, hexp, hmb]] at hnone
          exact absurd hnone (by simp)
        · rw [show is_break_glass_active now uid pid ((sid, s) :: tl)
                = ((is_break_glass_active now uid pid tl).1,
                   (sid, s) :: (is_break_glass_active now uid pid tl).2) by
              simp [is_break_glass_active, hexp,
                    Bool.eq_false_iff.mpr hmb]] at hnone ⊢
          have hn : (is_break_glass_active now uid pid tl).1 = none := hnone
          show (sid, s) :: (is_break_glass_active now uid pid tl).2
              = List.filter (fun e => !decide (e.2.expires_at < now))
                  ((sid, s) :: tl)
          rw [ih hn, List.filter_cons]
          simp [hexp]

/-! ## Claims C7, C8, C9 about the break-glass manager -/

/-- C8: `is_active` returns a session id exactly when the store holds a
grant matching `(actor, subject)` whose `expires_at` is not in the past
(at `expires_at` itself the grant is still active — the code's test is
the strict `expires < now`); the scan never removes a non-expired
grant (the surviving store is a sublist of the original, and anything
gone was expired); and whenever the result is `None` — in particular
once wall-clock time passes every matching grant's `expires_at` — the
full scan has purged exactly the expired grants from the store. -/
theorem is_active_lazy_expiry (now : Int) (uid pid : String)
    (store : List (String × BGSession)) :
    ((is_break_glass_active now uid pid store).1.isSome = true
      ↔ ∃ e ∈ store, ¬(e.2.expires_at < now)
          ∧ e.2.user_id = uid ∧ e.2.patient_id = pid)
    ∧ (is_break_glass_active now uid pid store).2.Sublist store
    ∧ (∀ e ∈ store, e ∉ (is_break_glass_active now uid pid store).2 →
        e.2.expires_at < now)
    ∧ ((is_break_glass_active now uid pid store).1 = none →
        (is_break_glass_active now uid pid store).2
          = store.filter (fun e => !(decide (e.2.expires_at < now)))) :=
  ⟨bg_isActive_some_iff now uid pid store,
   bg_isActive_sublist now uid pid store,
   bg_isActive_removed_expired now uid pid store,
   bg_isActive_none_filter now uid pid store⟩

/-- Witness for C8: a store holding one matching grant that expired at
instant 50, checked at instant 100: the scan answers `None` and purges
the expired grant from the store. -/
theorem is_active_lazy_expiry_witness :
    (is_break_glass_active 100 "u1" "p1"
        [("g1", { user_id := "u1", tenant_id := "t1", patient_id := "p1",
                  reason := "cardiac arrest code team", activated_at := 0,
                  expires_at := 50, last_reauth := 0 })]).1 = none
    ∧ (is_break_glass_active 100 "u1" "p1"
        [("g1", { user_id := "u1", tenant_id := "t1", patient_id := "p1",
                  reason := "cardiac arrest code team", activated_at := 0,
                  expires_at := 50, last_reauth := 0 })]).2 = [] := by
  have h := (is_active_lazy_expiry 100 "u1" "p1"
    [("g1", { user_id := "u1", tenant_id := "t1", patient_id := "p1",
              reason := "cardiac arrest code team", activated_at := 0,
              expires_at := 50, last_reauth := 0 })]).2.2.2
  exact ⟨rfl, by rw [h rfl]; rfl⟩

/-- C7 counterexample: the code validates only the upper bound, so the
negative duration `-1` (which is ≤ 240) is accepted — the activation
returns 200 with a grant whose `expires_at` is already in the past —
yet the grant is *not* visible via `is_active` even at the activation
instant itself: the claim "a duration less than or equal to 240
minutes is accepted and the grant is immediately visible via
is_active" fails at `duration = -1`. -/
theorem activate_negative_duration_invisible :
    ((-1 : Int) ≤ BREAK_GLASS_MAX_MINUTES)
    ∧ (activate_break_glass "er" "p1" (-1) "u1" "t1" 0 "s1" true "a1"
        [] []).1
        = .ok { session_id := "s1", expires_at := -1,
                reauth_required_at := 30 }
    ∧ (is_break_glass_active 0 "u1" "p1"
        (activate_break_glass "er" "p1" (-1) "u1" "t1" 0 "s1" true "a1"
          [] []).2.1).1 = none :=
  ⟨by decide, rfl, rfl⟩

/-- C7 (amended): a requested duration strictly greater than the
maximum of 240 minutes is rejected with the validation error, before
any grant is stored or any audit entry written (store and ledger are
returned unchanged); a *non-negative* duration of at most 240 minutes
(the default of 60 included) is accepted and the grant is immediately
visible via `is_active` at the activation instant.  (A negative
duration — also ≤ 240 — is accepted too, but produces an
already-expired grant that `is_active` never reports.) -/
theorem activate_duration_bounds (reason patient_id : String)
    (duration : Int) (user_id tenant_id : String) (now : Int)
    (session_id : String) (enabled : Bool) (audit_id : String)
    (store : List (String × BGSession)) (ledger : List AuditEntry) :
    (BREAK_GLASS_DEFAULT_MINUTES = 60 ∧ BREAK_GLASS_MAX_MINUTES = 240)
    ∧ (duration > BREAK_GLASS_MAX_MINUTES →
        activate_break_glass reason patient_id duration user_id tenant_id
            now session_id enabled audit_id store ledger
          = (.error BREAK_GLASS_MAX_DETAIL, store, ledger))
    ∧ (0 ≤ duration → duration ≤ BREAK_GLASS_MAX_MINUTES →
        (activate_break_glass reason patient_id duration user_id tenant_id
            now session_id enabled audit_id store ledger).1
          = .ok { session_id := session_id, expires_at := now + duration,
                  reauth_required_at := now + REAUTH_INTERVAL_MINUTES }
        ∧ (is_break_glass_active now user_id patient_id
            (activate_break_glass reason patient_id duration user_id
              tenant_id now session_id enabled audit_id store
              ledger).2.1).1.isSome = true) := by
  refine ⟨⟨rfl, rfl⟩, ?_, ?_⟩
  · intro hgt
    unfold activate_break_glass
    rw [if_pos hgt]
  · intro h0 hle
    have hnot : ¬(duration > BREAK_GLASS_MAX_MINUTES) := not_lt.mpr hle
    constructor
    · unfold activate_break_glass
      rw [if_neg hnot]
    · have hstore : (activate_break_glass reason patient_id duration
          user_id tenant_id now session_id enabled audit_id store
          ledger).2.1
          = store ++ [(session_id,
              { user_id := user_id, tenant_id := tenant_id,
                patient_id := patient_id, reason := reason,
                activated_at := now, expires_at := now + duration,
                last_reauth := now })] := by
        unfold activate_break_glass
        rw [if_neg hnot]
      rw [hstore]
      rw [bg_isActive_some_iff]
      refine ⟨(session_id,
        { user_id := user_id, tenant_id := tenant_id,
          patient_id := patient_id, reason := reason,
          activated_at := now, expires_at := now + duration,
          last_reauth := now }), ?_, ?_, rfl, rfl⟩
      · exact List.mem_append_right _ (List.mem_singleton.mpr rfl)
      · simp only []
        omega

/-- Witness for C7 (amended): duration 241 is rejected with the store
and ledger untouched; the default duration of 60 minutes is accepted
and the new grant is immediately reported by `is_active`. -/
theorem activate_duration_bounds_witness :
    (activate_break_glass "er" "p1" 241 "u1" "t1" 0 "s1" true "a1" [] []
      = (.error BREAK_GLASS_MAX_DETAIL, [], []))
    ∧ (activate_break_glass "er" "p1" BREAK_GLASS_DEFAULT_MINUTES "u1"
        "t1" 0 "s1" true "a1" [] []).1
        = .ok { session_id := "s1", expires_at := 0 + 60,
                reauth_required_at := 0 + 30 }
    ∧ (is_break_glass_active 0 "u1" "p1"
        (activate_break_glass "er" "p1" BREAK_GLASS_DEFAULT_MINUTES "u1"
          "t1" 0 "s1" true "a1" [] []).2.1).1.isSome = true := by
  have h241 := (activate_duration_bounds "er" "p1" 241 "u1" "t1" 0 "s1"
    true "a1" [] []).2.1 (by decide)
  have h60 := (activate_duration_bounds "er" "p1"
    BREAK_GLASS_DEFAULT_MINUTES "u1" "t1" 0 "s1" true "a1" [] []).2.2
    (by decide) (by decide)
  exact ⟨h241, h60.1, h60.2⟩

/-! Helper lemma: popping a key from a store with pairwise-distinct
keys (the dict invariant) leaves no binding of that key behind. -/

theorem eraseKey_find_none (sid : String)
    (store : List (String × BGSession))
    (hnd : (store.map Prod.fst).Nodup) :
    (eraseKey sid store).find? (fun e => e.1 == sid) = none := by
  induction store with
  | nil => rfl
  | cons hd tl ih =>
      obtain ⟨k, v⟩ := hd
      rw [List.map_cons, List.nodup_cons] at hnd
      by_cases hk : k = sid
      · rw [show eraseKey sid ((k, v) :: tl) = tl by
            simp [eraseKey, hk]]
        rw [List.find?_eq_none]
        intro e he
        simp only [beq_iff_eq]
        intro heq
        apply hnd.1
        have hmem : e.1 ∈ List.map Prod.fst tl :=
          List.mem_map_of_mem Prod.fst he
        rw [heq, ← hk] at hmem
        exact hmem
      · rw [show eraseKey sid ((k, v) :: tl)
              = (k, v) :: eraseKey sid tl by simp [eraseKey, hk]]
        rw [List.find?_cons_of_neg _ (by simpa using hk)]
        exact ih hnd.2

/-- C9 counterexample: a grant that is already expired (here at check
instant 100, with `expires_at = 50`) but still present in the store is
*not* a no-op for `deactivate`: the call pops it and writes a
`break_glass_deactivate` audit entry, contradicting "writes no
break_glass_deactivate audit entry" for an already-expired grant. -/
theorem deactivate_expired_grant_audits :
    (50 : Int) < 100
    ∧ (deactivate_break_glass "g1" "u1" "t1" true "a1" 100
        [("g1", { user_id := "u1", tenant_id := "t1", patient_id := "p1",
                  reason := "er", activated_at := 0, expires_at := 50,
                  last_reauth := 0 })] []).2.map (fun e => e.action)
        = ["break_glass_deactivate"] :=
  ⟨by decide, rfl⟩

/-- C9 (amended): `deactivate` never raises (it is a total function);
applied to a grant id with no binding in the store it is a strict
no-op — store and ledger both unchanged, in particular no
`break_glass_deactivate` entry is written; and under the dict invariant
(pairwise-distinct keys) a second `deactivate` of the same id — by any
actor — is a no-op, so revocation is idempotent.  (A grant id still
bound in the store, even one already expired, is however popped *and*
audited by the first call.) -/
theorem deactivate_noop_idempotent (sid uid tid uid' tid' : String)
    (enabled enabled' : Bool) (aid aid' : String) (ts ts' : Int)
    (store : List (String × BGSession)) (ledger : List AuditEntry) :
    (store.find? (fun e => e.1 == sid) = none →
      deactivate_break_glass sid uid tid enabled aid ts store ledger
        = (store, ledger))
    ∧ ((store.map Prod.fst).Nodup →
        deactivate_break_glass sid uid' tid' enabled' aid' ts'
            (deactivate_break_glass sid uid tid enabled aid ts store
              ledger).1
            (deactivate_break_glass sid uid tid enabled aid ts store
              ledger).2
          = deactivate_break_glass sid uid tid enabled aid ts store
              ledger) := by
  constructor
  · intro hnone
    unfold deactivate_break_glass
    rw [hnone]
  · intro hnd
    cases hf : store.find? (fun e => e.1 == sid) with
    | none =>
        have h1 : deactivate_break_glass sid uid tid enabled aid ts store
            ledger = (store, ledger) := by
          unfold deactivate_break_glass; rw [hf]
        rw [h1]
        unfold deactivate_break_glass
        rw [hf]
    | some e =>
        have h1 : deactivate_break_glass sid uid tid enabled aid ts store
            ledger
            = (eraseKey sid store,
               record_audit enabled ledger aid ts tid uid
                 "break_glass_deactivate" "patient" (some e.2.patient_id)
                 [("session_id", DVal.str sid)] none none) := by
          unfold deactivate_break_glass; rw [hf]
        rw [h1]
        unfold deactivate_break_glass
        rw [eraseKey_find_none sid store hnd]

/-- Witness for C9 (amended): deactivating the unknown id `"gX"` on an
empty store is a no-op, and deactivating `"g1"` twice (the second time
by a different actor) behaves exactly like deactivating it once. -/
theorem deactivate_noop_idempotent_witness :
    (deactivate_break_glass "gX" "u1" "t1" true "a1" 0 [] [] = ([], []))
    ∧ deactivate_break_glass "g1" "u2" "t2" true "a2" 7
        (deactivate_break_glass "g1" "u1" "t1" true "a1" 5
          [("g1", { user_id := "u1", tenant_id := "t1",
                    patient_id := "p1", reason := "er", activated_at := 0,
                    expires_at := 60, last_reauth := 0 })] []).1
        (deactivate_break_glass "g1" "u1" "t1" true "a1" 5
          [("g1", { user_id := "u1", tenant_id := "t1",
                    patient_id := "p1", reason := "er", activated_at := 0,
                    expires_at := 60, last_reauth := 0 })] []).2
      = deactivate_break_glass "g1" "u1" "t1" true "a1" 5
          [("g1", { user_id := "u1", tenant_id := "t1",
                    patient_id := "p1", reason := "er", activated_at := 0,
                    expires_at := 60, last_reauth := 0 })] [] :=
  ⟨(deactivate_noop_idempotent "gX" "u1" "t1" "u1" "t1" true true "a1"
      "a1" 0 0 [] []).1 rfl,
   (deactivate_noop_idempotent "g1" "u1" "t1" "u2" "t2" true true "a1"
      "a2" 5 7
      [("g1", { user_id := "u1", tenant_id := "t1", patient_id := "p1",
                reason := "er", activated_at := 0, expires_at := 60,
                last_reauth := 0 })] []).2 (by simp)⟩

/-- A concrete audit row for the C4 witness. -/
def demoEntry : AuditEntry :=
  { id := "a0", tenant_id := "t1", user_id := "u1", action := "read",
    resource_type := "patients", resource_id := none, details := [],
    ip_address := none, user_agent := none, timestamp := 0 }

/-- A concrete audit query for the C4 witness. -/
def demoQuery : AuditQuery :=
  { tenant_id := "t1", user_id := none, action := none,
    resource_type := none, resource_id := none, from_date := none,
    to_date := none, page := 1, page_size := 50 }

/-- Witness for C4: a concrete table holding one entry, run through a
concrete write followed by a query -- the original entry is still
present afterwards. -/
theorem audit_ledger_append_only_witness :
    demoEntry ∈ ledger_run [demoEntry]
      [LedgerOp.record true "a1" 1 "t1" "u1" "create" "patients"
         none [] none none,
       LedgerOp.query demoQuery] :=
  audit_ledger_append_only.2.1 _ _ _ (List.mem_singleton.mpr rfl)
